import Mathlib

/-!
Shallow embedding of the order-management service (service/models.py,
service/common/error_handlers.py, and the route layer described by the
spec) together with theorems checking the specification claims.

Timestamps are modelled as natural numbers; the external stdlib rendering
`datetime.isoformat` is modelled by an injective string rendering.
Python object mutation is modelled by explicit state passing: an operation
that can raise returns either the new state or the raised message paired
with the state the object was left in (Python exceptions do not undo
attribute assignments already performed).
-/

namespace OrdersService

/-- models.py: ALLOWED_STATUS. -/
def ALLOWED_STATUS : List String := ["placed", "shipped", "returned", "canceled"]

/-- models.py: DEFAULT_STATUS. -/
def DEFAULT_STATUS : String := "placed"

/-- A single-quote character, used when rendering error messages. -/
def sq : String := String.singleton (Char.ofNat 39)

/-- Wraps a string in single quotes, as the f-strings in the source do. -/
def quoted (s : String) : String := sq ++ s ++ sq

/-- In-memory OrderItem entity (models.py class OrderItem).  Attributes are
`none` until assigned, as for a freshly constructed Python model object. -/
structure OrderItem where
  id : Option Int
  quantity : Option Int
  order_id : Option Int
  product_id : Option Int
deriving Repr, DecidableEq

/-- In-memory Order entity (models.py class Order). -/
structure Order where
  id : Option Int
  customer_id : Option Int
  status : Option String
  shipped_at : Option Nat
  created_at : Option Nat
  order_items : List OrderItem
deriving Repr, DecidableEq

/-- Field mapping of an OrderItem payload: which keys are present and their
values. -/
structure ItemFields where
  order_id : Option Int
  quantity : Option Int
  product_id : Option Int
deriving Repr, DecidableEq

/-- An OrderItem payload: either a mapping, or a malformed (non-mapping)
body carrying the text of the TypeError it provokes. -/
inductive ItemData where
  | mapping : ItemFields → ItemData
  | malformed : String → ItemData
deriving Repr, DecidableEq

/-- Field mapping of an Order payload.  `created_at` and `shipped_at` carry
an inner Option: the key may be present and map to null.  The `id` key may
be present but is never read by Order.deserialize. -/
structure OrderData where
  id : Option Int
  customer_id : Option Int
  status : Option String
  created_at : Option (Option Nat)
  shipped_at : Option (Option Nat)
  order_items : Option (List ItemData)
deriving Repr, DecidableEq

/-- Outcome of running a deserializing mutation on an entity: success with
the new state, or a raised DataValidationError message together with the
state the entity was left in when the exception propagated. -/
inductive DResult (α : Type) where
  | ok : α → DResult α
  | err : String → α → DResult α
deriving Repr, DecidableEq

/-- The entity state after the run, whether or not an error was raised. -/
def DResult.state : DResult α → α
  | .ok a => a
  | .err _ a => a

/-- The raised message, if any. -/
def DResult.errMsg : DResult α → Option String
  | .ok _ => none
  | .err m _ => some m

/-- models.py OrderItem.deserialize: order_id is optional; quantity and
product_id are read in that order, a missing key raising
`Invalid OrderItem: missing <key>`; a non-mapping body raises the
bad-or-no-data message via the TypeError handler. -/
def OrderItem.deserialize (self : OrderItem) (data : ItemData) : DResult OrderItem :=
  match data with
  | .malformed s =>
      .err ("Invalid OrderItem: body of request contained bad or no data " ++ s) self
  | .mapping f =>
      let self1 := match f.order_id with
        | some v => { self with order_id := some v }
        | none => self
      match f.quantity with
      | none => .err "Invalid OrderItem: missing quantity" self1
      | some q =>
          let self2 := { self1 with quantity := some q }
          match f.product_id with
          | none => .err "Invalid OrderItem: missing product_id" self2
          | some p => .ok { self2 with product_id := some p }

/-- Python str.lower, modelled on the character list (the stdlib
String.toLower does not reduce in the kernel). -/
def lower (s : String) : String := String.mk (s.data.map Char.toLower)

/-- Python `self.status or DEFAULT_STATUS`: None and the empty string are
falsy. -/
def statusOrDefault : Option String → String
  | none => DEFAULT_STATUS
  | some s => if s = "" then DEFAULT_STATUS else s

/-- A freshly constructed OrderItem() with every attribute unset. -/
def newOrderItem : OrderItem := ⟨none, none, none, none⟩

/-- The order_items loop of Order.deserialize: for each element a fresh
OrderItem is deserialized and appended; a faulty element propagates its
error, keeping the items appended so far. -/
def Order.deserializeItems (self : Order) : List ItemData → DResult Order
  | [] => .ok self
  | d :: rest =>
      match OrderItem.deserialize newOrderItem d with
      | .err m _ => .err m self
      | .ok item =>
          Order.deserializeItems { self with order_items := self.order_items ++ [item] } rest

/-- models.py Order.deserialize: customer_id is read when present or when
require_fields is set (a missing required key raising
`Invalid Order: missing customer_id`); status is taken from the payload or
the current value (defaulting to placed), lowercased and checked against
ALLOWED_STATUS; created_at and shipped_at are applied whenever their key is
present; a present order_items key clears the collection and deserializes
each element. -/
def Order.deserialize (self : Order) (data : OrderData) (require_fields : Bool) :
    DResult Order :=
  if data.customer_id.isNone && require_fields then
    .err "Invalid Order: missing customer_id" self
  else
  let self1 := match data.customer_id with
    | some v => { self with customer_id := some v }
    | none => self
  let status := lower (match data.status with
    | some v => v
    | none => statusOrDefault self1.status)
  if status ∈ ALLOWED_STATUS then
    let self2 := { self1 with status := some status }
    let self3 := match data.created_at with
      | some v => { self2 with created_at := v }
      | none => self2
    let self4 := match data.shipped_at with
      | some v => { self3 with shipped_at := v }
      | none => self3
    match data.order_items with
    | none => .ok self4
    | some items => Order.deserializeItems { self4 with order_items := [] } items
  else
    .err ("Invalid status " ++ quoted status) self1

/-- JSON values, as produced by the serializers and the error handler. -/
inductive JValue where
  | null
  | int : Int → JValue
  | str : String → JValue
  | arr : List JValue → JValue
  | obj : List (String × JValue) → JValue
deriving Repr

/-- An optional integer column rendered to JSON. -/
def optIntJ : Option Int → JValue
  | none => .null
  | some v => .int v

/-- An optional string column rendered to JSON. -/
def optStrJ : Option String → JValue
  | none => .null
  | some s => .str s

/-- Models the external stdlib ISO-8601 rendering datetime.isoformat as an
injective string rendering of the timestamp. -/
def isoformat (t : Nat) : String := "1970-01-01T00:00:" ++ toString t

/-- A nullable timestamp column rendered as in Order.serialize:
`isoformat() if set else None`. -/
def optTimeJ : Option Nat → JValue
  | none => .null
  | some t => .str (isoformat t)

/-- models.py OrderItem.serialize. -/
def OrderItem.serialize (self : OrderItem) : List (String × JValue) :=
  [("id", optIntJ self.id),
   ("quantity", optIntJ self.quantity),
   ("order_id", optIntJ self.order_id),
   ("product_id", optIntJ self.product_id)]

/-- models.py Order.serialize: the base mapping always carries id,
customer_id, status and the two timestamps; order_items is added only when
with_items is set. -/
def Order.serialize (self : Order) (with_items : Bool) : List (String × JValue) :=
  let data := [("id", optIntJ self.id),
    ("customer_id", optIntJ self.customer_id),
    ("status", optStrJ self.status),
    ("created_at", optTimeJ self.created_at),
    ("shipped_at", optTimeJ self.shipped_at)]
  if with_items then
    data ++ [("order_items", JValue.arr (self.order_items.map (fun i => JValue.obj i.serialize)))]
  else
    data

/-- The persisted store: Order rows (each carrying its owned items),
standalone OrderItem rows, and the next surrogate key the store assigns. -/
structure Store where
  orders : List Order
  items : List OrderItem
  nextId : Int
deriving Repr, DecidableEq

/-- Outcome of a db.session.commit(): success, or an underlying store
exception with its message. -/
inductive Commit where
  | success
  | failure : String → Commit
deriving Repr, DecidableEq

/-- Errors surfaced to callers of the model layer.  `dataValidation` is a
DataValidationError; `rawStore` stands for an underlying store exception
escaping unwrapped (the model layer must never produce it). -/
inductive ServiceError where
  | dataValidation : String → ServiceError
  | rawStore : String → ServiceError
deriving Repr, DecidableEq

/-- The guard shared by Order.create and Order.update: when the status is
shipped and shipped_at is unset, shipped_at is populated with the current
time. -/
def Order.autoShip (self : Order) (now : Nat) : Order :=
  if self.status == some "shipped" && self.shipped_at.isNone then
    { self with shipped_at := some now }
  else
    self

/-- Replaces the row whose primary key matches the entity being updated. -/
def Store.replaceOrder (db : Store) (o : Order) : Store :=
  { db with orders := db.orders.map (fun r => if r.id == o.id then o else r) }

/-- models.py Order.create: self.id is forced to None, shipped_at is
auto-populated when due, then the row is inserted; on success the store
assigns the id; on failure the transaction is rolled back and the cause is
wrapped in a DataValidationError. -/
def Order.create (self : Order) (db : Store) (now : Nat) (c : Commit) :
    Except ServiceError Order × Store :=
  let self1 := { self with id := none }
  let self2 := self1.autoShip now
  match c with
  | .success =>
      let self3 := { self2 with id := some db.nextId }
      (.ok self3, { db with orders := db.orders ++ [self3], nextId := db.nextId + 1 })
  | .failure msg => (.error (.dataValidation msg), db)

/-- models.py Order.update: shipped_at is auto-populated when due, then the
row is saved; on failure the transaction is rolled back and the cause is
wrapped in a DataValidationError. -/
def Order.update (self : Order) (db : Store) (now : Nat) (c : Commit) :
    Except ServiceError Order × Store :=
  let self1 := self.autoShip now
  match c with
  | .success => (.ok self1, db.replaceOrder self1)
  | .failure msg => (.error (.dataValidation msg), db)

/-- models.py Order.delete: removes the row; the cascade removes the owned
OrderItem rows; on failure rolls back and wraps the cause. -/
def Order.delete (self : Order) (db : Store) (c : Commit) :
    Except ServiceError Unit × Store :=
  match c with
  | .success =>
      (.ok (), { db with
                   orders := db.orders.filter (fun r => r.id != self.id),
                   items := db.items.filter (fun i => i.order_id != self.id) })
  | .failure msg => (.error (.dataValidation msg), db)

/-- models.py OrderItem.create: self.id is forced to None, the row is
inserted, the store assigns the id; on failure rolls back and wraps the
cause. -/
def OrderItem.create (self : OrderItem) (db : Store) (c : Commit) :
    Except ServiceError OrderItem × Store :=
  let self1 := { self with id := none }
  match c with
  | .success =>
      let self2 := { self1 with id := some db.nextId }
      (.ok self2, { db with items := db.items ++ [self2], nextId := db.nextId + 1 })
  | .failure msg => (.error (.dataValidation msg), db)

/-- models.py OrderItem.update: saves the row; on failure rolls back and
wraps the cause. -/
def OrderItem.update (self : OrderItem) (db : Store) (c : Commit) :
    Except ServiceError OrderItem × Store :=
  match c with
  | .success =>
      (.ok self, { db with items := db.items.map (fun r => if r.id == self.id then self else r) })
  | .failure msg => (.error (.dataValidation msg), db)

/-- models.py OrderItem.delete: removes the row; on failure rolls back and
wraps the cause. -/
def OrderItem.delete (self : OrderItem) (db : Store) (c : Commit) :
    Except ServiceError Unit × Store :=
  match c with
  | .success => (.ok (), { db with items := db.items.filter (fun r => r.id != self.id) })
  | .failure msg => (.error (.dataValidation msg), db)

/-- error_handlers.py bad_request: every error body is the JSON object
with keys status, error and message. -/
def errorBody (status : Nat) (error message : String) : JValue :=
  .obj [("status", .int status), ("error", .str error), ("message", .str message)]

/-- An HTTP-style response: status code and JSON body. -/
structure RouteResponse where
  code : Nat
  body : JValue
deriving Repr

/-- Python renders the status attribute into the conflict message by
f-string interpolation: None prints as None. -/
def statusText : Option String → String
  | none => "None"
  | some s => s

/-- Modelled from the spec: the route module (service/routes.py) is not
under src.  PUT /api/orders/\x7bid\x7d/return on an existing order, per
sections 4.3, 6 and 8 of the spec: legal only from shipped, moving the
order to returned, persisting it via the model update, and answering 202
with body \x7border_id, status\x7d; from any other status it answers a 400
conflict whose message is "Cannot return order with status '<current>'"
and does not mutate the order. -/
def returnOrderRoute (o : Order) (db : Store) (now : Nat) :
    RouteResponse × Order × Store :=
  if o.status == some "shipped" then
    match Order.update { o with status := some "returned" } db now .success with
    | (.ok o2, db2) =>
        ({ code := 202,
           body := .obj [("order_id", optIntJ o2.id), ("status", optStrJ o2.status)] },
         o2, db2)
    | (.error _, db2) => ({ code := 500, body := .null }, o, db2)
  else
    ({ code := 400,
       body := errorBody 400 "Bad Request"
         ("Cannot return order with status " ++ quoted (statusText o.status)) },
     o, db)

/-- Modelled from the spec: the route module (service/routes.py) is not
under src.  PUT /api/orders/\x7bid\x7d/cancel on an existing order, per
sections 4.3, 6 and 8 of the spec: legal only from placed, moving the
order to canceled, persisting it via the model update, and answering 200
with the updated order serialized; from any other status it answers a 400
conflict whose message is "Cannot cancel order with status '<current>'"
and does not mutate the order. -/
def cancelOrderRoute (o : Order) (db : Store) (now : Nat) :
    RouteResponse × Order × Store :=
  if o.status == some "placed" then
    match Order.update { o with status := some "canceled" } db now .success with
    | (.ok o2, db2) =>
        ({ code := 200, body := .obj (o2.serialize false) }, o2, db2)
    | (.error _, db2) => ({ code := 500, body := .null }, o, db2)
  else
    ({ code := 400,
       body := errorBody 400 "Bad Request"
         ("Cannot cancel order with status " ++ quoted (statusText o.status)) },
     o, db)

/-- Modelled from the spec: the route module (service/routes.py) is not
under src.  PUT /api/orders/\x7bid\x7d/items/\x7biid\x7d on an item already
resolved under order orderId, per section 4.4 of the spec: the payload is
deserialized into the item with the source OrderItem.deserialize, a
deserialization error answers 400 with its message, and a caller-supplied
order_id in the payload is ignored - the item keeps its original order
ownership; on success the item is persisted and answered with 200. -/
def updateOrderItemRoute (orderId : Int) (item : OrderItem) (payload : ItemData)
    (db : Store) : RouteResponse × OrderItem × Store :=
  match OrderItem.deserialize item payload with
  | .err msg item1 =>
      ({ code := 400, body := errorBody 400 "Bad Request" msg }, item1, db)
  | .ok item1 =>
      let item2 := { item1 with order_id := some orderId }
      match OrderItem.update item2 db .success with
      | (.ok item3, db2) => ({ code := 200, body := .obj item3.serialize }, item3, db2)
      | (.error _, db2) => ({ code := 500, body := .null }, item2, db2)

/-- The string s contains sub as a substring. -/
def containsSub (s sub : String) : Prop := ∃ a b, s = a ++ sub ++ b

/-- C1: for every existing Order, the return operation succeeds exactly
when the status is shipped: then the status becomes returned and the
response is 202 with body \x7border_id, status\x7d; from any other status
it answers a 400 conflict whose message contains
"Cannot return order with status '<current>'" and leaves the order
unchanged. -/
theorem return_route_spec (o : Order) (db : Store) (now : Nat) (s : String)
    (hs : o.status = some s) :
    (s = "shipped" →
      (returnOrderRoute o db now).1.code = 202 ∧
      (returnOrderRoute o db now).1.body =
        .obj [("order_id", optIntJ o.id), ("status", JValue.str "returned")] ∧
      (returnOrderRoute o db now).2.1.status = some "returned") ∧
    (s ≠ "shipped" →
      (returnOrderRoute o db now).1.code = 400 ∧
      (returnOrderRoute o db now).2.1 = o ∧
      ∃ m, (returnOrderRoute o db now).1.body = errorBody 400 "Bad Request" m ∧
        containsSub m ("Cannot return order with status " ++ quoted s)) := by
  constructor
  · rintro rfl
    simp [returnOrderRoute, hs, Order.update, Order.autoShip, optStrJ]
  · intro hne
    have hb : (o.status == some "shipped") = false := by
      simp [hs, hne]
    have hroute : returnOrderRoute o db now =
        ({ code := 400,
           body := errorBody 400 "Bad Request"
             ("Cannot return order with status " ++ quoted (statusText o.status)) },
         o, db) := by
      simp [returnOrderRoute, hb]
    rw [hroute]
    refine ⟨rfl, rfl, _, rfl, "", "", ?_⟩
    simp [statusText, hs]

/-- Closed instance of return_route_spec at concrete orders. -/
theorem return_route_spec_witness :
    (returnOrderRoute ⟨some 1, some 2, some "shipped", none, none, []⟩ ⟨[], [], 5⟩ 9).1.code = 202 ∧
    (returnOrderRoute ⟨some 1, some 2, some "placed", none, none, []⟩ ⟨[], [], 5⟩ 9).1.code = 400 := by
  constructor
  · exact ((return_route_spec ⟨some 1, some 2, some "shipped", none, none, []⟩
      ⟨[], [], 5⟩ 9 "shipped" rfl).1 rfl).1
  · exact ((return_route_spec ⟨some 1, some 2, some "placed", none, none, []⟩
      ⟨[], [], 5⟩ 9 "placed" rfl).2 (by decide)).1

/-- C2: for every existing Order, the cancel operation succeeds exactly
when the status is placed: then the status becomes canceled and the
response is 200 with the updated order serialized; from any other status
it answers a 400 conflict whose message contains
"Cannot cancel order with status '<current>'" and leaves the order
unchanged. -/
theorem cancel_route_spec (o : Order) (db : Store) (now : Nat) (s : String)
    (hs : o.status = some s) :
    (s = "placed" →
      (cancelOrderRoute o db now).1.code = 200 ∧
      (cancelOrderRoute o db now).2.1.status = some "canceled" ∧
      (cancelOrderRoute o db now).1.body =
        .obj ((cancelOrderRoute o db now).2.1.serialize false)) ∧
    (s ≠ "placed" →
      (cancelOrderRoute o db now).1.code = 400 ∧
      (cancelOrderRoute o db now).2.1 = o ∧
      ∃ m, (cancelOrderRoute o db now).1.body = errorBody 400 "Bad Request" m ∧
        containsSub m ("Cannot cancel order with status " ++ quoted s)) := by
  constructor
  · rintro rfl
    simp [cancelOrderRoute, hs, Order.update, Order.autoShip]
  · intro hne
    have hb : (o.status == some "placed") = false := by
      simp [hs, hne]
    have hroute : cancelOrderRoute o db now =
        ({ code := 400,
           body := errorBody 400 "Bad Request"
             ("Cannot cancel order with status " ++ quoted (statusText o.status)) },
         o, db) := by
      simp [cancelOrderRoute, hb]
    rw [hroute]
    refine ⟨rfl, rfl, _, rfl, "", "", ?_⟩
    simp [statusText, hs]

/-- Closed instance of cancel_route_spec at concrete orders. -/
theorem cancel_route_spec_witness :
    (cancelOrderRoute ⟨some 1, some 2, some "placed", none, none, []⟩ ⟨[], [], 5⟩ 9).1.code = 200 ∧
    (cancelOrderRoute ⟨some 1, some 2, some "shipped", none, none, []⟩ ⟨[], [], 5⟩ 9).1.code = 400 := by
  constructor
  · exact ((cancel_route_spec ⟨some 1, some 2, some "placed", none, none, []⟩
      ⟨[], [], 5⟩ 9 "placed" rfl).1 rfl).1
  · exact ((cancel_route_spec ⟨some 1, some 2, some "shipped", none, none, []⟩
      ⟨[], [], 5⟩ 9 "shipped" rfl).2 (by decide)).1

/-- C3 counterexample: once shipped_at is set it can still be overwritten -
Order.deserialize applies a caller-supplied shipped_at unconditionally,
replacing the value 5 already stored with the payload value 7. -/
theorem deserialize_overwrites_set_shipped_at :
    (⟨some 1, some 2, some "shipped", some 5, some 3, []⟩ : Order).shipped_at = some 5 ∧
    (Order.deserialize ⟨some 1, some 2, some "shipped", some 5, some 3, []⟩
      ⟨none, none, none, none, some (some 7), none⟩ false).state.shipped_at = some 7 := by
  constructor <;> rfl

/-- C3 amended: create and update auto-populate shipped_at to the current
time exactly when the status is shipped and shipped_at is unset, and
neither create nor update ever overwrites a set shipped_at; deserialize,
however, applies a caller-supplied shipped_at value unconditionally. -/
theorem shipped_at_auto_population (o : Order) (db : Store) (now t : Nat)
    (o2 o3 : Order)
    (hc : (Order.create o db now .success).1 = .ok o2)
    (hu : (Order.update o db now .success).1 = .ok o3) :
    (o2.shipped_at = if o.status == some "shipped" && o.shipped_at.isNone
      then some now else o.shipped_at) ∧
    (o3.shipped_at = if o.status == some "shipped" && o.shipped_at.isNone
      then some now else o.shipped_at) ∧
    (o.shipped_at = some t → o2.shipped_at = some t ∧ o3.shipped_at = some t) := by
  have h2 : o2.shipped_at = if o.status == some "shipped" && o.shipped_at.isNone
      then some now else o.shipped_at := by
    simp only [Order.create, Except.ok.injEq] at hc
    rw [← hc]
    simp only [Order.autoShip]
    split <;> rfl
  have h3 : o3.shipped_at = if o.status == some "shipped" && o.shipped_at.isNone
      then some now else o.shipped_at := by
    simp only [Order.update, Except.ok.injEq] at hu
    rw [← hu]
    simp only [Order.autoShip]
    split <;> rfl
  refine ⟨h2, h3, fun ht => ⟨?_, ?_⟩⟩
  · rw [h2, ht]; simp
  · rw [h3, ht]; simp

/-- Closed instance of shipped_at_auto_population: a shipped order without
a timestamp gets one from create, and a set timestamp survives update. -/
theorem shipped_at_auto_population_witness :
    ((Order.create ⟨none, some 2, some "shipped", none, none, []⟩ ⟨[], [], 5⟩ 9 .success).1 =
      .ok ⟨some 5, some 2, some "shipped", some 9, none, []⟩) ∧
    ((Order.update ⟨some 5, some 2, some "shipped", some 4, none, []⟩ ⟨[], [], 6⟩ 9 .success).1 =
      .ok ⟨some 5, some 2, some "shipped", some 4, none, []⟩) ∧
    (⟨some 5, some 2, some "shipped", some 4, none, []⟩ : Order).shipped_at = some 4 := by
  refine ⟨rfl, rfl, ?_⟩
  exact ((shipped_at_auto_population ⟨some 5, some 2, some "shipped", some 4, none, []⟩
    ⟨[], [], 6⟩ 9 4 ⟨some 6, some 2, some "shipped", some 4, none, []⟩
    ⟨some 5, some 2, some "shipped", some 4, none, []⟩ rfl rfl).2.2 rfl).2.symm ▸ rfl

/-- C9: Order.deserialize is not atomic on failure: an invalid status
raises after customer_id was already reassigned, and a faulty order_items
element raises after the existing collection was cleared and the earlier
elements appended; the entity keeps those partial modifications. -/
theorem deserialize_partial_mutation_on_error :
    (Order.deserialize ⟨some 1, some 7, some "placed", none, none, [⟨some 9, some 1, some 1, some 2⟩]⟩
        ⟨none, some 42, some "bogus", none, none, none⟩ false =
      .err ("Invalid status " ++ quoted "bogus")
        ⟨some 1, some 42, some "placed", none, none, [⟨some 9, some 1, some 1, some 2⟩]⟩) ∧
    (Order.deserialize ⟨some 1, some 7, some "placed", none, none, [⟨some 9, some 1, some 1, some 2⟩]⟩
        ⟨none, none, none, none, none, some [.mapping ⟨none, some 3, some 4⟩, .malformed "x"]⟩ false =
      .err ("Invalid OrderItem: body of request contained bad or no data x")
        ⟨some 1, some 7, some "placed", none, none, [⟨none, some 3, none, some 4⟩]⟩) := by
  constructor <;> rfl

/-- The order_items loop never touches the entity id. -/
theorem deserializeItems_keeps_id (self : Order) (l : List ItemData) :
    (Order.deserializeItems self l).state.id = self.id := by
  induction l generalizing self with
  | nil => rfl
  | cons d rest ih =>
      simp only [Order.deserializeItems]
      cases OrderItem.deserialize newOrderItem d with
      | err m it => rfl
      | ok item => exact ih _

/-- C10: a caller-supplied id never determines an Order primary key:
deserialize never reads the id key and leaves the entity id unchanged;
create discards any pre-set id, the store assigns the stored id, and
create always inserts a new row rather than updating an existing one. -/
theorem order_id_store_assigned (o : Order) (d : OrderData) (rf : Bool)
    (db : Store) (now : Nat) (c : Commit) (i j : Option Int) (o2 : Order)
    (hc : (Order.create o db now .success).1 = .ok o2) :
    (Order.deserialize o { d with id := i } rf = Order.deserialize o { d with id := j } rf) ∧
    ((Order.deserialize o d rf).state.id = o.id) ∧
    (Order.create { o with id := i } db now c = Order.create { o with id := j } db now c) ∧
    (o2.id = some db.nextId) ∧
    ((Order.create o db now .success).2.orders.length = db.orders.length + 1) := by
  refine ⟨rfl, ?_, rfl, ?_, ?_⟩
  · rcases d with ⟨di, dc, ds, dca, dsa, doi⟩
    simp only [Order.deserialize]
    split
    · rfl
    · split
      · cases dc <;> cases dca <;> cases dsa <;> cases doi <;>
          first
            | rfl
            | exact deserializeItems_keeps_id _ _
      · cases dc <;> rfl
  · simp only [Order.create, Except.ok.injEq] at hc
    rw [← hc]
  · simp [Order.create]

/-- Closed instance of order_id_store_assigned: a payload id and a pre-set
entity id are both discarded; the store assigns id 5. -/
theorem order_id_store_assigned_witness :
    (Order.create ⟨some 99, some 2, some "placed", none, none, []⟩ ⟨[], [], 5⟩ 9 .success).1 =
      .ok ⟨some 5, some 2, some "placed", none, none, []⟩ ∧
    (Order.deserialize ⟨some 99, some 2, some "placed", none, none, []⟩
      ⟨some 3, none, none, none, none, none⟩ false).state.id = some 99 := by
  refine ⟨rfl, ?_⟩
  exact (order_id_store_assigned ⟨some 99, some 2, some "placed", none, none, []⟩
    ⟨some 3, none, none, none, none, none⟩ false ⟨[], [], 5⟩ 9 .success none none
    ⟨some 5, some 2, some "placed", none, none, []⟩ rfl).2.1

/-- C4: for every existing OrderItem resolved under its owning order, the
item-update route ignores a caller-supplied order_id in the payload: the
stored order_id stays the owning order id while quantity and product_id
from the payload are applied. -/
theorem item_update_ignores_order_id (item : OrderItem) (oid : Int)
    (f : ItemFields) (q p : Int) (db : Store)
    (hown : item.order_id = some oid)
    (hq : f.quantity = some q) (hp : f.product_id = some p) :
    (updateOrderItemRoute oid item (.mapping f) db).1.code = 200 ∧
    (updateOrderItemRoute oid item (.mapping f) db).2.1.order_id = item.order_id ∧
    (updateOrderItemRoute oid item (.mapping f) db).2.1.quantity = some q ∧
    (updateOrderItemRoute oid item (.mapping f) db).2.1.product_id = some p := by
  rcases f with ⟨fo, fq, fp⟩
  simp only at hq hp
  subst hq
  subst hp
  rw [hown]
  cases fo <;> exact ⟨rfl, rfl, rfl, rfl⟩

/-- Closed instance of item_update_ignores_order_id, mirroring the
repository test: payload order_id -1 is ignored, quantity 99 and
product_id 123 are applied. -/
theorem item_update_ignores_order_id_witness :
    (updateOrderItemRoute 10 ⟨some 3, some 1, some 10, some 7⟩
      (.mapping ⟨some (-1), some 99, some 123⟩) ⟨[], [], 5⟩).2.1.order_id = some 10 ∧
    (updateOrderItemRoute 10 ⟨some 3, some 1, some 10, some 7⟩
      (.mapping ⟨some (-1), some 99, some 123⟩) ⟨[], [], 5⟩).2.1.quantity = some 99 := by
  constructor
  · exact (item_update_ignores_order_id ⟨some 3, some 1, some 10, some 7⟩ 10
      ⟨some (-1), some 99, some 123⟩ 99 123 ⟨[], [], 5⟩ rfl rfl rfl).2.1
  · exact (item_update_ignores_order_id ⟨some 3, some 1, some 10, some 7⟩ 10
      ⟨some (-1), some 99, some 123⟩ 99 123 ⟨[], [], 5⟩ rfl rfl rfl).2.2.1

/-- The order_items loop never touches the entity status. -/
theorem deserializeItems_keeps_status (self : Order) (l : List ItemData) :
    (Order.deserializeItems self l).state.status = self.status := by
  induction l generalizing self with
  | nil => rfl
  | cons d rest ih =>
      simp only [Order.deserializeItems]
      cases OrderItem.deserialize newOrderItem d with
      | err m it => rfl
      | ok item => exact ih _

/-- C5: Order.deserialize status handling, assuming the customer_id step
passes: a present status value must lowercase into the allowed set and is
stored lowercased; an invalid value raises an error naming the (lowercased)
value; an absent key retains the prior status, or defaults to placed when
there is none. -/
theorem deserialize_status_spec (o : Order) (d : OrderData) (rf : Bool)
    (hc : d.customer_id.isSome = true ∨ rf = false) :
    (∀ v, d.status = some v → lower v ∈ ALLOWED_STATUS →
      (Order.deserialize o d rf).state.status = some (lower v)) ∧
    (∀ v, d.status = some v → lower v ∉ ALLOWED_STATUS →
      (Order.deserialize o d rf).errMsg = some ("Invalid status " ++ quoted (lower v))) ∧
    (d.status = none → o.status = none →
      (Order.deserialize o d rf).state.status = some "placed") ∧
    (∀ ps, d.status = none → o.status = some ps → ps ∈ ALLOWED_STATUS →
      (Order.deserialize o d rf).state.status = some ps) := by
  rcases d with ⟨di, dc, ds, dca, dsa, doi⟩
  have hguard : (Option.isNone dc && rf) = false := by
    rcases hc with h | h
    · rcases dc with _ | v
      · simp at h
      · simp
    · subst h
      simp
  refine ⟨?_, ?_, ?_, ?_⟩
  · rintro v rfl hmem
    simp only [Order.deserialize, hguard, Bool.false_eq_true, if_false, if_pos hmem]
    cases doi with
    | none =>
        cases dc <;> cases dca <;> cases dsa <;> rfl
    | some items =>
        refine (deserializeItems_keeps_status _ _).trans ?_
        cases dc <;> cases dca <;> cases dsa <;> rfl
  · rintro v rfl hmem
    simp only [Order.deserialize, hguard, Bool.false_eq_true, if_false, if_neg hmem]
    rfl
  · rintro rfl hos
    have hst : (match dc with
        | some w => { o with customer_id := some w }
        | none => o).status = none := by
      cases dc <;> simpa using hos
    simp only [Order.deserialize, hguard, Bool.false_eq_true, if_false, hst]
    have hmem : lower (statusOrDefault none) ∈ ALLOWED_STATUS := by decide
    simp only [if_pos hmem]
    cases doi with
    | none =>
        cases dc <;> cases dca <;> cases dsa <;> rfl
    | some items =>
        refine (deserializeItems_keeps_status _ _).trans ?_
        cases dc <;> cases dca <;> cases dsa <;> rfl
  · rintro ps rfl hos hmem
    have hst : (match dc with
        | some w => { o with customer_id := some w }
        | none => o).status = some ps := by
      cases dc <;> simpa using hos
    simp only [Order.deserialize, hguard, Bool.false_eq_true, if_false, hst]
    fin_cases hmem <;>
      · simp only [statusOrDefault]
        rw [if_pos (by decide)]
        cases doi with
        | none =>
            cases dc <;> cases dca <;> cases dsa <;> rfl
        | some items =>
            refine (deserializeItems_keeps_status _ _).trans ?_
            cases dc <;> cases dca <;> cases dsa <;> rfl

/-- Closed instance of deserialize_status_spec: an uppercase SHIPPED is
normalized and stored, an invalid value raises naming it, an absent key
retains the prior placed. -/
theorem deserialize_status_spec_witness :
    (Order.deserialize ⟨some 1, some 2, some "placed", none, none, []⟩
      ⟨none, none, some "SHIPPED", none, none, none⟩ false).state.status = some "shipped" ∧
    (Order.deserialize ⟨some 1, some 2, some "placed", none, none, []⟩
      ⟨none, none, some "bogus", none, none, none⟩ false).errMsg =
        some ("Invalid status " ++ quoted "bogus") ∧
    (Order.deserialize ⟨some 1, some 2, some "placed", none, none, []⟩
      ⟨none, none, none, none, none, none⟩ false).state.status = some "placed" := by
  refine ⟨?_, ?_, ?_⟩
  · exact (deserialize_status_spec ⟨some 1, some 2, some "placed", none, none, []⟩
      ⟨none, none, some "SHIPPED", none, none, none⟩ false (Or.inr rfl)).1 "SHIPPED" rfl (by decide)
  · exact (deserialize_status_spec ⟨some 1, some 2, some "placed", none, none, []⟩
      ⟨none, none, some "bogus", none, none, none⟩ false (Or.inr rfl)).2.1 "bogus" rfl (by decide)
  · exact (deserialize_status_spec ⟨some 1, some 2, some "placed", none, none, []⟩
      ⟨none, none, none, none, none, none⟩ false (Or.inr rfl)).2.2.2 "placed" rfl rfl (by decide)

/-- C6: every mutating persistence operation, on an underlying store
failure, rolls back (the store is unchanged) and surfaces a single
DataValidationError wrapping the underlying cause - never a raw store
exception; on a successful create the entity id is populated by the
store. -/
theorem persistence_failure_wrapped (o : Order) (it : OrderItem) (db : Store)
    (now : Nat) (msg : String) :
    Order.create o db now (.failure msg) = (.error (.dataValidation msg), db) ∧
    Order.update o db now (.failure msg) = (.error (.dataValidation msg), db) ∧
    Order.delete o db (.failure msg) = (.error (.dataValidation msg), db) ∧
    OrderItem.create it db (.failure msg) = (.error (.dataValidation msg), db) ∧
    OrderItem.update it db (.failure msg) = (.error (.dataValidation msg), db) ∧
    OrderItem.delete it db (.failure msg) = (.error (.dataValidation msg), db) ∧
    (∀ o2, (Order.create o db now .success).1 = .ok o2 → o2.id = some db.nextId) ∧
    (∀ i2, (OrderItem.create it db .success).1 = .ok i2 → i2.id = some db.nextId) := by
  refine ⟨rfl, rfl, rfl, rfl, rfl, rfl, ?_, ?_⟩
  · intro o2 h
    simp only [Order.create, Except.ok.injEq] at h
    rw [← h]
  · intro i2 h
    simp only [OrderItem.create, Except.ok.injEq] at h
    rw [← h]

/-- Closed instance of persistence_failure_wrapped: a failing commit
yields the wrapped error with the store untouched, and a successful create
stores id 5. -/
theorem persistence_failure_wrapped_witness :
    Order.create ⟨none, some 2, some "placed", none, none, []⟩ ⟨[], [], 5⟩ 9 (.failure "db down") =
      (.error (.dataValidation "db down"), ⟨[], [], 5⟩) ∧
    (⟨some 5, some 2, some "placed", none, none, []⟩ : Order).id = some 5 := by
  constructor
  · exact (persistence_failure_wrapped ⟨none, some 2, some "placed", none, none, []⟩
      ⟨none, none, none, none⟩ ⟨[], [], 5⟩ 9 "db down").1
  · exact (persistence_failure_wrapped ⟨none, some 2, some "placed", none, none, []⟩
      ⟨none, none, none, none⟩ ⟨[], [], 5⟩ 9 "db down").2.2.2.2.2.2.1
      ⟨some 5, some 2, some "placed", none, none, []⟩ rfl

/-- C7: OrderItem.deserialize requires product_id and quantity: a missing
key raises a validation error naming the missing field, a malformed
non-mapping payload raises a validation error describing the malformed
body, and when both keys are present their values are stored on the
item. -/
theorem item_deserialize_required_fields (it : OrderItem) (f : ItemFields)
    (s : String) (q p : Int) :
    (OrderItem.deserialize it (.malformed s) =
      .err ("Invalid OrderItem: body of request contained bad or no data " ++ s) it) ∧
    (f.quantity = none →
      (OrderItem.deserialize it (.mapping f)).errMsg =
        some "Invalid OrderItem: missing quantity") ∧
    (f.quantity = some q → f.product_id = none →
      (OrderItem.deserialize it (.mapping f)).errMsg =
        some "Invalid OrderItem: missing product_id") ∧
    (f.quantity = some q → f.product_id = some p →
      (OrderItem.deserialize it (.mapping f)).errMsg = none ∧
      (OrderItem.deserialize it (.mapping f)).state.quantity = some q ∧
      (OrderItem.deserialize it (.mapping f)).state.product_id = some p) := by
  rcases f with ⟨fo, fq, fp⟩
  refine ⟨rfl, ?_, ?_, ?_⟩
  · intro h
    simp only at h
    subst h
    cases fo <;> rfl
  · intro h1 h2
    simp only at h1 h2
    subst h1
    subst h2
    cases fo <;> rfl
  · intro h1 h2
    simp only at h1 h2
    subst h1
    subst h2
    cases fo <;> exact ⟨rfl, rfl, rfl⟩

/-- Closed instance of item_deserialize_required_fields, mirroring the
repository test payloads. -/
theorem item_deserialize_required_fields_witness :
    (OrderItem.deserialize ⟨none, none, none, none⟩ (.mapping ⟨none, some 1, none⟩)).errMsg =
      some "Invalid OrderItem: missing product_id" ∧
    (OrderItem.deserialize ⟨none, none, none, none⟩ (.mapping ⟨none, none, some 1⟩)).errMsg =
      some "Invalid OrderItem: missing quantity" := by
  constructor
  · exact (item_deserialize_required_fields ⟨none, none, none, none⟩
      ⟨none, some 1, none⟩ "x" 1 1).2.2.1 rfl rfl
  · exact (item_deserialize_required_fields ⟨none, none, none, none⟩
      ⟨none, none, some 1⟩ "x" 1 1).2.1 rfl

/-- C8: Order.serialize with with_items false omits the order_items key
entirely; the timestamp fields render as the isoformat string when set and
null when unset; with with_items true the same mapping additionally
carries order_items with each item serialized. -/
theorem serialize_items_key_spec (o : Order) (t : Nat) :
    ((o.serialize false).lookup "order_items" = none) ∧
    ((o.serialize false).lookup "created_at" = some (optTimeJ o.created_at)) ∧
    ((o.serialize false).lookup "shipped_at" = some (optTimeJ o.shipped_at)) ∧
    (optTimeJ none = JValue.null) ∧
    (optTimeJ (some t) = JValue.str (isoformat t)) ∧
    (o.serialize true = o.serialize false ++
      [("order_items", JValue.arr (o.order_items.map (fun i => JValue.obj i.serialize)))]) := by
  exact ⟨rfl, rfl, rfl, rfl, rfl, rfl⟩

end OrdersService
